import Mathlib

/-!
# Verification of the UTM coordinate class (`gpsnmealib/utmCoord.h`)

A `UTMCoord` maintains one logical position in two representations —
geographic (latitude/longitude, degrees) and UTM (zone number, zone
letter, easting, northing) — with lazy conversion between them guarded
by two staleness flags (`m_requireLatLonConvert`, `m_requireUTMConvert`).

The header declares the class layout, the lazy-evaluation flags, the
asterisk sentinel for out-of-grid latitudes, and the inline body of
`getCoordType`.  The bodies of the conversion routines and of the
set/get member functions are not part of the given sources, so they are
modelled from the specification (WGS84 transverse Mercator forward and
inverse series, zone rules, and the documented cache contract).
Latitudes, longitudes, eastings and northings are modelled as real
numbers.
-/

/-- Modelled from the spec: UTM zone number from longitude,
`floor((lon+180)/6) + 1`, with the Norway exception (zone 32 for
latitudes 56–64°N between 3–12°E) and the Svalbard exceptions
(zones 31/33/35/37 for latitudes 72–84°N).  The conversion bodies are
absent from the given sources. -/
noncomputable def utmZoneNumber (lat lon : ℝ) : ℤ :=
  if 56 ≤ lat ∧ lat < 64 ∧ 3 ≤ lon ∧ lon < 12 then 32
  else if 72 ≤ lat ∧ lat < 84 then
    if 0 ≤ lon ∧ lon < 9 then 31
    else if 9 ≤ lon ∧ lon < 21 then 33
    else if 21 ≤ lon ∧ lon < 33 then 35
    else if 33 ≤ lon ∧ lon < 42 then 37
    else ⌊(lon + 180) / 6⌋ + 1
  else ⌊(lon + 180) / 6⌋ + 1

/-- The 8°-band letters `C`–`W` (omitting `I` and `O`); the last band
`X` is 12° tall and handled separately. -/
def bandTable : List Char :=
  ['C', 'D', 'E', 'F', 'G', 'H', 'J', 'K', 'L', 'M', 'N', 'P', 'Q',
   'R', 'S', 'T', 'U', 'V', 'W']

/-- Modelled from the spec: UTM zone letter from the 8°-band lookup
table `C`–`X` (omitting `I` and `O`) spanning 80°S to 84°N, with the
asterisk sentinel outside that range (the sentinel value is the
asterisk documented in the header comment of `utmCoord.h`). -/
noncomputable def utmZoneLetter (lat : ℝ) : Char :=
  if lat < -80 ∨ 84 ≤ lat then '*'
  else if 72 ≤ lat then 'X'
  else bandTable.getD (⌊(lat + 80) / 8⌋).toNat 'N'

/-- Central meridian of a UTM zone, in degrees. -/
noncomputable def lonOriginDeg (z : ℤ) : ℝ := ((z : ℝ) - 1) * 6 - 180 + 3

/-- Modelled from the spec: easting of the transverse Mercator forward
projection for an ellipsoid with semi-major axis `a` and flattening
`f` (scale factor 0.9996, false easting 500000 m), the standard
forward series.  The body of `latLonToUTM` is absent from the given
sources. -/
noncomputable def utmEasting (a f lat lon : ℝ) : ℝ :=
  let e2 := f * (2 - f)
  let ep2 := e2 / (1 - e2)
  let φ := lat * Real.pi / 180
  let lam := lon * Real.pi / 180
  let lam0 := lonOriginDeg (utmZoneNumber lat lon) * Real.pi / 180
  let N := a / Real.sqrt (1 - e2 * Real.sin φ ^ 2)
  let T := Real.tan φ ^ 2
  let C := ep2 * Real.cos φ ^ 2
  let A := Real.cos φ * (lam - lam0)
  0.9996 * N * (A + (1 - T + C) * A ^ 3 / 6 +
    (5 - 18 * T + T ^ 2 + 72 * C - 58 * ep2) * A ^ 5 / 120) + 500000

/-- Modelled from the spec: northing of the transverse Mercator forward
projection (scale factor 0.9996, false northing 10000000 m in the
southern hemisphere, 0 in the northern), the standard forward series
with fourth-order meridional arc.  The body of `latLonToUTM` is absent
from the given sources. -/
noncomputable def utmNorthing (a f lat lon : ℝ) : ℝ :=
  let e2 := f * (2 - f)
  let ep2 := e2 / (1 - e2)
  let φ := lat * Real.pi / 180
  let lam := lon * Real.pi / 180
  let lam0 := lonOriginDeg (utmZoneNumber lat lon) * Real.pi / 180
  let N := a / Real.sqrt (1 - e2 * Real.sin φ ^ 2)
  let T := Real.tan φ ^ 2
  let C := ep2 * Real.cos φ ^ 2
  let A := Real.cos φ * (lam - lam0)
  let M := a * ((1 - e2 / 4 - 3 * e2 ^ 2 / 64 - 5 * e2 ^ 3 / 256) * φ
    - (3 * e2 / 8 + 3 * e2 ^ 2 / 32 + 45 * e2 ^ 3 / 1024) * Real.sin (2 * φ)
    + (15 * e2 ^ 2 / 256 + 45 * e2 ^ 3 / 1024) * Real.sin (4 * φ)
    - (35 * e2 ^ 3 / 3072) * Real.sin (6 * φ))
  0.9996 * (M + N * Real.tan φ * (A ^ 2 / 2 +
    (5 - T + 9 * C + 4 * C ^ 2) * A ^ 4 / 24 +
    (61 - 58 * T + T ^ 2 + 600 * C - 330 * ep2) * A ^ 6 / 720)) +
  (if lat < 0 then 10000000 else 0)

/-- Modelled from the spec: the generic forward conversion
`latLonToUTM` (zone number, zone letter, easting, northing) for an
ellipsoid with semi-major axis `a` and flattening `f`. -/
noncomputable def latLonToUTM (a f lat lon : ℝ) : ℤ × Char × ℝ × ℝ :=
  (utmZoneNumber lat lon, utmZoneLetter lat, utmEasting a f lat lon,
    utmNorthing a f lat lon)

/-- WGS84 semi-major axis, meters. -/
noncomputable def wgs84A : ℝ := 6378137

/-- WGS84 flattening. -/
noncomputable def wgs84F : ℝ := 1 / 298.257223563

/-- `latLonToUTMWGS84` specializes `latLonToUTM` to the WGS84
ellipsoid. -/
noncomputable def latLonToUTMWGS84 (lat lon : ℝ) : ℤ × Char × ℝ × ℝ :=
  latLonToUTM wgs84A wgs84F lat lon

/-- Modelled from the spec: the generic inverse conversion
`utmToLatLon`, recovering latitude and longitude from a UTM coordinate
by the standard footpoint-latitude series (the hemisphere is read off
the zone letter: letters below `N` are southern). -/
noncomputable def utmToLatLon (a f : ℝ) (utmXZone : ℤ) (utmYZone : Char)
    (easting northing : ℝ) : ℝ × ℝ :=
  let e2 := f * (2 - f)
  let ep2 := e2 / (1 - e2)
  let x := easting - 500000
  let y := if utmYZone < 'N' then northing - 10000000 else northing
  let M := y / 0.9996
  let mu := M / (a * (1 - e2 / 4 - 3 * e2 ^ 2 / 64 - 5 * e2 ^ 3 / 256))
  let e1 := (1 - Real.sqrt (1 - e2)) / (1 + Real.sqrt (1 - e2))
  let φ1 := mu + (3 * e1 / 2 - 27 * e1 ^ 3 / 32) * Real.sin (2 * mu)
    + (21 * e1 ^ 2 / 16 - 55 * e1 ^ 4 / 32) * Real.sin (4 * mu)
    + (151 * e1 ^ 3 / 96) * Real.sin (6 * mu)
  let N1 := a / Real.sqrt (1 - e2 * Real.sin φ1 ^ 2)
  let T1 := Real.tan φ1 ^ 2
  let C1 := ep2 * Real.cos φ1 ^ 2
  let R1 := a * (1 - e2) / ((1 - e2 * Real.sin φ1 ^ 2) *
    Real.sqrt (1 - e2 * Real.sin φ1 ^ 2))
  let D := x / (N1 * 0.9996)
  let lat := (φ1 - (N1 * Real.tan φ1 / R1) * (D ^ 2 / 2 -
    (5 + 3 * T1 + 10 * C1 - 4 * C1 ^ 2 - 9 * ep2) * D ^ 4 / 24 +
    (61 + 90 * T1 + 298 * C1 + 45 * T1 ^ 2 - 252 * ep2 - 3 * C1 ^ 2) *
      D ^ 6 / 720)) * 180 / Real.pi
  let lon := lonOriginDeg utmXZone + ((D - (1 + 2 * T1 + C1) * D ^ 3 / 6 +
    (5 - 2 * C1 + 28 * T1 - 3 * C1 ^ 2 + 8 * ep2 + 24 * T1 ^ 2) *
      D ^ 5 / 120) / Real.cos φ1) * 180 / Real.pi
  (lat, lon)

/-- `utmToLatLonWGS84` specializes `utmToLatLon` to the WGS84
ellipsoid. -/
noncomputable def utmToLatLonWGS84 (utmXZone : ℤ) (utmYZone : Char)
    (easting northing : ℝ) : ℝ × ℝ :=
  utmToLatLon wgs84A wgs84F utmXZone utmYZone easting northing

/-- The typed-coordinate kind, from the `typedCoord.h` family the
header includes (only the UTM member is in scope here). -/
inductive COORD_TYPE where
  | COORD_LATLON : COORD_TYPE
  | COORD_UTM : COORD_TYPE
  | COORD_XY : COORD_TYPE
deriving DecidableEq

/-- The state of a `UTMCoord` object: the inherited geographic fields,
the four UTM fields, and the two lazy-evaluation flags declared in
`utmCoord.h` (`mutable bool m_requireLatLonConvert`,
`mutable bool m_requireUTMConvert`). -/
structure UTMCoord where
  m_lat : ℝ
  m_lon : ℝ
  m_utmXZone : ℤ
  m_utmYZone : Char
  m_easting : ℝ
  m_northing : ℝ
  m_requireLatLonConvert : Bool
  m_requireUTMConvert : Bool

/-- Modelled from the spec: the default constructor gives an
implementation-defined zero value with both caches valid. -/
def initState : UTMCoord :=
  { m_lat := 0
    m_lon := 0
    m_utmXZone := 0
    m_utmYZone := ' '
    m_easting := 0
    m_northing := 0
    m_requireLatLonConvert := false
    m_requireUTMConvert := false }

/-- Modelled from the spec: `setLatLonCoord` stores lat/lon directly,
marks the UTM cache stale, leaves the geographic cache valid, and does
no immediate UTM computation. -/
def setLatLonCoord (s : UTMCoord) (lat lon : ℝ) : UTMCoord :=
  { s with
    m_lat := lat
    m_lon := lon
    m_requireLatLonConvert := false
    m_requireUTMConvert := true }

/-- Modelled from the spec: `setUTMCoord` stores the UTM fields
directly, marks the geographic cache stale, and leaves the UTM cache
valid. -/
def setUTMCoord (s : UTMCoord) (utmXZone : ℤ) (utmYZone : Char)
    (easting northing : ℝ) : UTMCoord :=
  { s with
    m_utmXZone := utmXZone
    m_utmYZone := utmYZone
    m_easting := easting
    m_northing := northing
    m_requireLatLonConvert := true
    m_requireUTMConvert := false }

/-- Modelled from the spec: a `UTMCoord` constructed from explicit UTM
fields. -/
def mkUTMCoord (utmXZone : ℤ) (utmYZone : Char)
    (easting northing : ℝ) : UTMCoord :=
  setUTMCoord initState utmXZone utmYZone easting northing

/-- Modelled from the spec: `getUTMCoord` recomputes the UTM fields
from the geographic fields via `latLonToUTMWGS84` when the UTM cache
is stale (clearing the flag and memoizing the result), and otherwise
returns the cached fields unchanged. -/
noncomputable def getUTMCoord (s : UTMCoord) :
    (ℤ × Char × ℝ × ℝ) × UTMCoord :=
  if s.m_requireUTMConvert then
    let r := latLonToUTMWGS84 s.m_lat s.m_lon
    (r, { s with
      m_utmXZone := r.1
      m_utmYZone := r.2.1
      m_easting := r.2.2.1
      m_northing := r.2.2.2
      m_requireUTMConvert := false })
  else
    ((s.m_utmXZone, s.m_utmYZone, s.m_easting, s.m_northing), s)

/-- Modelled from the spec: `getLatLonCoord` recomputes the geographic
fields from the UTM fields via `utmToLatLonWGS84` when the geographic
cache is stale (clearing the flag and memoizing the result), and
otherwise returns the cached fields unchanged. -/
noncomputable def getLatLonCoord (s : UTMCoord) : (ℝ × ℝ) × UTMCoord :=
  if s.m_requireLatLonConvert then
    let r := utmToLatLonWGS84 s.m_utmXZone s.m_utmYZone s.m_easting
      s.m_northing
    (r, { s with
      m_lat := r.1
      m_lon := r.2
      m_requireLatLonConvert := false })
  else
    ((s.m_lat, s.m_lon), s)

/-- Modelled from the spec: `getUTMZone` triggers the same lazy UTM
computation as `getUTMCoord` and returns the zone pair. -/
noncomputable def getUTMZone (s : UTMCoord) : (ℤ × Char) × UTMCoord :=
  let r := getUTMCoord s
  ((r.1.1, r.1.2.1), r.2)

/-- Modelled from the spec: `isOutsideUTMGrid` is true iff the current
(possibly newly computed) zone letter equals the asterisk sentinel. -/
noncomputable def isOutsideUTMGrid (s : UTMCoord) : Bool × UTMCoord :=
  let r := getUTMZone s
  (decide (r.1.2 = '*'), r.2)

/-- `getCoordType` returns `COORD_UTM` (inline body in `utmCoord.h`,
line 59) and touches no state. -/
def getCoordType (s : UTMCoord) : COORD_TYPE × UTMCoord :=
  (COORD_TYPE.COORD_UTM, s)

/-- One public operation on a `UTMCoord` (a constructor call is a start
state below, not an operation). -/
inductive UTMOp where
  | setLatLon (lat lon : ℝ) : UTMOp
  | setUTM (utmXZone : ℤ) (utmYZone : Char) (easting northing : ℝ) : UTMOp
  | readLatLon : UTMOp
  | readUTM : UTMOp
  | readZone : UTMOp
  | readOutside : UTMOp
  | readType : UTMOp

/-- The state change a single operation performs. -/
noncomputable def applyOp (s : UTMCoord) : UTMOp → UTMCoord
  | .setLatLon lat lon => setLatLonCoord s lat lon
  | .setUTM z l e n => setUTMCoord s z l e n
  | .readLatLon => (getLatLonCoord s).2
  | .readUTM => (getUTMCoord s).2
  | .readZone => (getUTMZone s).2
  | .readOutside => (isOutsideUTMGrid s).2
  | .readType => (getCoordType s).2

/-- Running a sequence of operations from a start state. -/
noncomputable def runOps (s : UTMCoord) (ops : List UTMOp) : UTMCoord :=
  ops.foldl applyOp s

/-- The two staleness flags are never both set. -/
def flagsOk (s : UTMCoord) : Prop :=
  ¬(s.m_requireLatLonConvert = true ∧ s.m_requireUTMConvert = true)

lemma flagsOk_applyOp (s : UTMCoord) (op : UTMOp) (h : flagsOk s) :
    flagsOk (applyOp s op) := by
  cases op with
  | setLatLon lat lon => simp [flagsOk, applyOp, setLatLonCoord]
  | setUTM z l e n => simp [flagsOk, applyOp, setUTMCoord]
  | readLatLon =>
      simp only [flagsOk, applyOp, getLatLonCoord] at h ⊢
      split <;> simp_all
  | readUTM =>
      simp only [flagsOk, applyOp, getUTMCoord] at h ⊢
      split <;> simp_all
  | readZone =>
      simp only [flagsOk, applyOp, getUTMZone, getUTMCoord] at h ⊢
      split <;> simp_all
  | readOutside =>
      simp only [flagsOk, applyOp, isOutsideUTMGrid, getUTMZone,
        getUTMCoord] at h ⊢
      split <;> simp_all
  | readType => simpa [flagsOk, applyOp, getCoordType] using h

lemma flagsOk_runOps (ops : List UTMOp) (s : UTMCoord) (h : flagsOk s) :
    flagsOk (runOps s ops) := by
  induction ops generalizing s with
  | nil => exact h
  | cons op t ih => exact ih _ (flagsOk_applyOp s op h)

lemma flagsOk_iff (s : UTMCoord) :
    flagsOk s ↔ (s.m_requireLatLonConvert = false ∨
      s.m_requireUTMConvert = false) := by
  unfold flagsOk
  rw [not_and_or, Bool.not_eq_true, Bool.not_eq_true]

/-- C7: in every state reachable by any sequence of set and get
operations from a default-constructed or UTM-constructed `UTMCoord`,
the two staleness flags are never both true: at least one of them is
false. -/
theorem reachable_flags_not_both_stale :
    (∀ ops : List UTMOp,
      (runOps initState ops).m_requireLatLonConvert = false ∨
      (runOps initState ops).m_requireUTMConvert = false) ∧
    (∀ (z : ℤ) (l : Char) (e n : ℝ) (ops : List UTMOp),
      (runOps (mkUTMCoord z l e n) ops).m_requireLatLonConvert = false ∨
      (runOps (mkUTMCoord z l e n) ops).m_requireUTMConvert = false) := by
  constructor
  · intro ops
    exact (flagsOk_iff _).1
      (flagsOk_runOps ops initState (by simp [flagsOk, initState]))
  · intro z l e n ops
    exact (flagsOk_iff _).1 (flagsOk_runOps ops (mkUTMCoord z l e n)
      (by simp [flagsOk, mkUTMCoord, setUTMCoord]))

/-- C8: `setLatLonCoord` stores the given lat/lon, marks the UTM cache
stale, leaves the geographic representation valid, and leaves the four
stored UTM fields untouched (no forward projection is performed by the
call). -/
theorem setLatLonCoord_frame (s : UTMCoord) (lat lon : ℝ) :
    (setLatLonCoord s lat lon).m_lat = lat ∧
    (setLatLonCoord s lat lon).m_lon = lon ∧
    (setLatLonCoord s lat lon).m_requireUTMConvert = true ∧
    (setLatLonCoord s lat lon).m_requireLatLonConvert = false ∧
    (setLatLonCoord s lat lon).m_utmXZone = s.m_utmXZone ∧
    (setLatLonCoord s lat lon).m_utmYZone = s.m_utmYZone ∧
    (setLatLonCoord s lat lon).m_easting = s.m_easting ∧
    (setLatLonCoord s lat lon).m_northing = s.m_northing :=
  ⟨rfl, rfl, rfl, rfl, rfl, rfl, rfl, rfl⟩

/-- C10: `getCoordType` always returns `COORD_UTM` and leaves the
state (all fields and both flags) unchanged. -/
theorem getCoordType_spec (s : UTMCoord) :
    getCoordType s = (COORD_TYPE.COORD_UTM, s) := rfl

/-- C5: after `setLatLonCoord`, the first `getUTMCoord` clears the
UTM-stale flag, and a second `getUTMCoord` returns the identical
quadruple, leaves the state unchanged, and merely reads the memoized
fields (no recomputation: the second call is exactly a read of the
cached fields). -/
theorem getUTMCoord_memoized (s : UTMCoord) (lat lon : ℝ) :
    ((getUTMCoord (setLatLonCoord s lat lon)).2).m_requireUTMConvert
      = false ∧
    (getUTMCoord ((getUTMCoord (setLatLonCoord s lat lon)).2)).1 =
      (getUTMCoord (setLatLonCoord s lat lon)).1 ∧
    (getUTMCoord ((getUTMCoord (setLatLonCoord s lat lon)).2)).2 =
      (getUTMCoord (setLatLonCoord s lat lon)).2 ∧
    getUTMCoord ((getUTMCoord (setLatLonCoord s lat lon)).2) =
      ((((getUTMCoord (setLatLonCoord s lat lon)).2).m_utmXZone,
        ((getUTMCoord (setLatLonCoord s lat lon)).2).m_utmYZone,
        ((getUTMCoord (setLatLonCoord s lat lon)).2).m_easting,
        ((getUTMCoord (setLatLonCoord s lat lon)).2).m_northing),
       (getUTMCoord (setLatLonCoord s lat lon)).2) := by
  simp [getUTMCoord, setLatLonCoord]

/-- C6: even when both representations are cached as valid (as after a
`getUTMCoord` call), `setUTMCoord` followed by `getLatLonCoord`
returns the inverse projection of the newly stored UTM fields, not the
previously cached geographic value. -/
theorem setUTM_then_getLatLon (s : UTMCoord) (z : ℤ) (l : Char)
    (e n : ℝ) :
    (getLatLonCoord (setUTMCoord ((getUTMCoord s).2) z l e n)).1 =
      utmToLatLonWGS84 z l e n := by
  unfold getUTMCoord
  split <;> simp [getLatLonCoord, setUTMCoord]

lemma bandTable_getD_ne (i : ℕ) : bandTable.getD i 'N' ≠ '*' := by
  unfold bandTable
  rcases i with _|_|_|_|_|_|_|_|_|_|_|_|_|_|_|_|_|_|_|i
  all_goals first
  | decide
  | simp [List.getD_cons_succ, List.getD_nil]

lemma utmZoneLetter_eq_star_iff (lat : ℝ) :
    utmZoneLetter lat = '*' ↔ (lat < -80 ∨ 84 ≤ lat) := by
  unfold utmZoneLetter
  by_cases h : lat < -80 ∨ 84 ≤ lat
  · rw [if_pos h]
    exact iff_of_true rfl h
  · rw [if_neg h]
    refine iff_of_false ?_ h
    by_cases h2 : 72 ≤ lat
    · rw [if_pos h2]; decide
    · rw [if_neg h2]; exact bandTable_getD_ne _

/-- C3: the zone number is `⌊(lon+180)/6⌋ + 1` away from the
Norway/Svalbard exception regions, and at lat 60°N lon 5°E the
conversion yields the exceptional zone 32, not the naive zone 31. -/
theorem zone_number_rule :
    (∀ lat lon : ℝ,
      ¬(56 ≤ lat ∧ lat < 64 ∧ 3 ≤ lon ∧ lon < 12) →
      ¬(72 ≤ lat ∧ lat < 84) →
      utmZoneNumber lat lon = ⌊(lon + 180) / 6⌋ + 1) ∧
    (getUTMCoord (setLatLonCoord initState 60 5)).1.1 = 32 := by
  constructor
  · intro lat lon h1 h2
    unfold utmZoneNumber
    rw [if_neg h1, if_neg h2]
  · simp [getUTMCoord, setLatLonCoord, initState, latLonToUTMWGS84,
      latLonToUTM]
    norm_num [utmZoneNumber]

/-- Witness for C3 at lat 10, lon 10 (outside both exception regions):
the naive zone formula applies and gives zone 32. -/
theorem zone_number_rule_witness : utmZoneNumber 10 10 = 32 := by
  have h := zone_number_rule.1 10 10 (by norm_num) (by norm_num)
  rw [h]
  have hf : ⌊((10:ℝ) + 180) / 6⌋ = 31 := by
    rw [Int.floor_eq_iff] <;> norm_num
  rw [hf]
  norm_num

lemma utmZoneLetter_ten : utmZoneLetter 10 = 'P' := by
  unfold utmZoneLetter
  rw [if_neg (by norm_num), if_neg (by norm_num)]
  have hf : ⌊((10:ℝ) + 80) / 8⌋ = 11 := by
    rw [Int.floor_eq_iff] <;> norm_num
  rw [hf]
  rfl

/-- C4: the zone letter is the asterisk sentinel iff the latitude is
outside [-80°, 84°); `isOutsideUTMGrid` is true exactly when the
(lazily computed) zone letter equals the sentinel; after
`setLatLonCoord 85 10` the returned letter is the sentinel and
`isOutsideUTMGrid` is true, while after `setLatLonCoord 10 10` the
sentinel is not produced: the letter is the band letter `P`. -/
theorem sentinel_iff_outside_grid :
    (∀ lat : ℝ, utmZoneLetter lat = '*' ↔ (lat < -80 ∨ 84 ≤ lat)) ∧
    (∀ s : UTMCoord,
      (isOutsideUTMGrid s).1 = true ↔ (getUTMZone s).1.2 = '*') ∧
    (getUTMCoord (setLatLonCoord initState 85 10)).1.2.1 = '*' ∧
    (isOutsideUTMGrid (setLatLonCoord initState 85 10)).1 = true ∧
    (getUTMCoord (setLatLonCoord initState 10 10)).1.2.1 = 'P' := by
  have h85 : utmZoneLetter (85 : ℝ) = '*' :=
    (utmZoneLetter_eq_star_iff 85).2 (by norm_num)
  refine ⟨utmZoneLetter_eq_star_iff, fun s => ?_, ?_, ?_, ?_⟩
  · simp [isOutsideUTMGrid]
  · simp [getUTMCoord, setLatLonCoord, initState, latLonToUTMWGS84,
      latLonToUTM, h85]
  · simp [isOutsideUTMGrid, getUTMZone, getUTMCoord, setLatLonCoord,
      initState, latLonToUTMWGS84, latLonToUTM, h85]
  · simp [getUTMCoord, setLatLonCoord, initState, latLonToUTMWGS84,
      latLonToUTM, utmZoneLetter_ten]

/-- C9: whenever a conversion stores the out-of-grid sentinel (the
latitude is outside [-80°, 84°)), the zone letter it returns and the
zone letter it stores are exactly the asterisk character. -/
theorem sentinel_is_asterisk (s : UTMCoord) (lat lon : ℝ)
    (h : lat < -80 ∨ 84 ≤ lat) :
    (getUTMCoord (setLatLonCoord s lat lon)).1.2.1 = '*' ∧
    ((getUTMCoord (setLatLonCoord s lat lon)).2).m_utmYZone = '*' := by
  have hl : utmZoneLetter lat = '*' := (utmZoneLetter_eq_star_iff lat).2 h
  constructor <;>
    simp [getUTMCoord, setLatLonCoord, latLonToUTMWGS84, latLonToUTM, hl]

/-- Witness for C9 at latitude 85 (above the grid). -/
theorem sentinel_is_asterisk_witness :
    ((85:ℝ) < -80 ∨ (84:ℝ) ≤ 85) ∧
    ((getUTMCoord (setLatLonCoord initState 85 10)).1.2.1 = '*' ∧
     ((getUTMCoord (setLatLonCoord initState 85 10)).2).m_utmYZone
       = '*') :=
  ⟨by norm_num, sentinel_is_asterisk initState 85 10 (by norm_num)⟩

/-- WGS84 eccentricity squared. -/
noncomputable def wgs84E2 : ℝ := wgs84F * (2 - wgs84F)

/-- WGS84 second eccentricity squared. -/
noncomputable def wgs84EP2 : ℝ := wgs84E2 / (1 - wgs84E2)

lemma utmZoneNumber_origin : utmZoneNumber 0 0 = 31 := by
  norm_num [utmZoneNumber]

lemma utmZoneLetter_origin : utmZoneLetter 0 = 'N' := by
  unfold utmZoneLetter
  rw [if_neg (by norm_num), if_neg (by norm_num)]
  have hf : ⌊((0:ℝ) + 80) / 8⌋ = 10 := by
    rw [Int.floor_eq_iff] <;> norm_num
  rw [hf]
  rfl

lemma utmEasting_wgs84_origin :
    utmEasting wgs84A wgs84F 0 0 =
      500000 - 0.9996 * 6378137 *
        (Real.pi / 60 + (1 + wgs84EP2) * (Real.pi / 60) ^ 3 / 6 +
         (5 + 14 * wgs84EP2) * (Real.pi / 60) ^ 5 / 120) := by
  unfold utmEasting
  rw [utmZoneNumber_origin]
  simp [lonOriginDeg, wgs84EP2, wgs84E2, wgs84A, wgs84F]
  ring

lemma utmNorthing_wgs84_origin : utmNorthing wgs84A wgs84F 0 0 = 0 := by
  unfold utmNorthing
  simp

lemma wgs84EP2_bounds : 0.0067394 < wgs84EP2 ∧ wgs84EP2 < 0.0067395 := by
  unfold wgs84EP2 wgs84E2 wgs84F
  norm_num

lemma pi_cube_bounds : 31.00625 < Real.pi ^ 3 ∧ Real.pi ^ 3 < 31.00630 := by
  have h1 : Real.pi ^ 3 < 3.141593 ^ 3 :=
    pow_lt_pow_left₀ Real.pi_lt_d6 Real.pi_pos.le (by norm_num)
  have h2 : (3.141592:ℝ) ^ 3 < Real.pi ^ 3 :=
    pow_lt_pow_left₀ Real.pi_gt_d6 (by norm_num) (by norm_num)
  constructor
  · calc (31.00625:ℝ) < 3.141592 ^ 3 := by norm_num
      _ < Real.pi ^ 3 := h2
  · calc Real.pi ^ 3 < 3.141593 ^ 3 := h1
      _ < 31.00630 := by norm_num

lemma pi_fifth_bounds : 306.0193 < Real.pi ^ 5 ∧ Real.pi ^ 5 < 306.0199 := by
  have h1 : Real.pi ^ 5 < 3.141593 ^ 5 :=
    pow_lt_pow_left₀ Real.pi_lt_d6 Real.pi_pos.le (by norm_num)
  have h2 : (3.141592:ℝ) ^ 5 < Real.pi ^ 5 :=
    pow_lt_pow_left₀ Real.pi_gt_d6 (by norm_num) (by norm_num)
  constructor
  · calc (306.0193:ℝ) < 3.141592 ^ 5 := by norm_num
      _ < Real.pi ^ 5 := h2
  · calc Real.pi ^ 5 < 3.141593 ^ 5 := h1
      _ < 306.0199 := by norm_num

lemma utmEasting_wgs84_origin_bounds :
    166020.44 < utmEasting wgs84A wgs84F 0 0 ∧
    utmEasting wgs84A wgs84F 0 0 < 166022.44 := by
  rw [utmEasting_wgs84_origin]
  obtain ⟨he1, he2⟩ := wgs84EP2_bounds
  obtain ⟨h3a, h3b⟩ := pi_cube_bounds
  obtain ⟨h5a, h5b⟩ := pi_fifth_bounds
  have hp1 : (3.141592:ℝ) < Real.pi := Real.pi_gt_d6
  have hp2 : Real.pi < 3.141593 := Real.pi_lt_d6
  have hep0 : (0:ℝ) < wgs84EP2 := lt_trans (by norm_num) he1
  have hm3a : wgs84EP2 * Real.pi ^ 3 < 0.20898 := by
    calc wgs84EP2 * Real.pi ^ 3 < wgs84EP2 * 31.00630 := by
          exact mul_lt_mul_of_pos_left h3b hep0
      _ < 0.0067395 * 31.00630 := by
          exact mul_lt_mul_of_pos_right he2 (by norm_num)
      _ ≤ 0.20898 := by norm_num
  have hm3b : (0.20894:ℝ) < wgs84EP2 * Real.pi ^ 3 := by
    calc (0.20894:ℝ) ≤ 0.0067394 * 31.00625 := by norm_num
      _ < wgs84EP2 * 31.00625 := by
          exact mul_lt_mul_of_pos_right he1 (by norm_num)
      _ < wgs84EP2 * Real.pi ^ 3 := by
          exact mul_lt_mul_of_pos_left h3a hep0
  have hm5a : wgs84EP2 * Real.pi ^ 5 < 2.06243 := by
    calc wgs84EP2 * Real.pi ^ 5 < wgs84EP2 * 306.0199 := by
          exact mul_lt_mul_of_pos_left h5b hep0
      _ < 0.0067395 * 306.0199 := by
          exact mul_lt_mul_of_pos_right he2 (by norm_num)
      _ ≤ 2.06243 := by norm_num
  have hm5b : (2.06238:ℝ) < wgs84EP2 * Real.pi ^ 5 := by
    calc (2.06238:ℝ) ≤ 0.0067394 * 306.0193 := by norm_num
      _ < wgs84EP2 * 306.0193 := by
          exact mul_lt_mul_of_pos_right he1 (by norm_num)
      _ < wgs84EP2 * Real.pi ^ 5 := by
          exact mul_lt_mul_of_pos_left h5a hep0
  constructor <;>
    linarith [hp1, hp2, h3a, h3b, h5a, h5b, hm3a, hm3b, hm5a, hm5b]

/-- C2, counterexample: after `setLatLonCoord 0 0`, the easting
returned by `getUTMCoord` is not within 1000 m of 500000 m (it is in
fact near 166021.4 m: the 500000 figure is the false easting at the
central meridian, and lon 0 lies 3° west of zone 31's central
meridian). -/
theorem equator_easting_not_near_500000 :
    1000 < |(getUTMCoord (setLatLonCoord initState 0 0)).1.2.2.1
      - 500000| := by
  have hred : (getUTMCoord (setLatLonCoord initState 0 0)).1.2.2.1 =
      utmEasting wgs84A wgs84F 0 0 := by
    simp [getUTMCoord, setLatLonCoord, initState, latLonToUTMWGS84,
      latLonToUTM]
  obtain ⟨h1, h2⟩ := utmEasting_wgs84_origin_bounds
  rw [hred, abs_sub_comm, abs_of_pos (by linarith)]
  linarith

/-- C2, amended: after `setLatLonCoord 0 0`, `getUTMCoord` returns
zone number 31, the northern zone letter `N`, easting within 1 m of
166021.44 m, and northing exactly 0. -/
theorem equator_utm_values :
    (getUTMCoord (setLatLonCoord initState 0 0)).1.1 = 31 ∧
    (getUTMCoord (setLatLonCoord initState 0 0)).1.2.1 = 'N' ∧
    |(getUTMCoord (setLatLonCoord initState 0 0)).1.2.2.1 - 166021.44|
      < 1 ∧
    (getUTMCoord (setLatLonCoord initState 0 0)).1.2.2.2 = 0 := by
  obtain ⟨h1, h2⟩ := utmEasting_wgs84_origin_bounds
  refine ⟨?_, ?_, ?_, ?_⟩
  · simp [getUTMCoord, setLatLonCoord, initState, latLonToUTMWGS84,
      latLonToUTM, utmZoneNumber_origin]
  · simp [getUTMCoord, setLatLonCoord, initState, latLonToUTMWGS84,
      latLonToUTM, utmZoneLetter_origin]
  · have hred : (getUTMCoord (setLatLonCoord initState 0 0)).1.2.2.1 =
        utmEasting wgs84A wgs84F 0 0 := by
      simp [getUTMCoord, setLatLonCoord, initState, latLonToUTMWGS84,
        latLonToUTM]
    rw [hred, abs_lt]
    constructor <;> linarith
  · simp [getUTMCoord, setLatLonCoord, initState, latLonToUTMWGS84,
      latLonToUTM, utmNorthing_wgs84_origin]
